import Mathlib

/-!
Shallow embedding of src/hardware/schematics/generate_schematic_pdf.py.

The script is a single straight-line function create_schematic_pdf(filename)
that draws fixed text lines onto a reportlab canvas of page size A4 and saves
it, plus a zero-argument entry point.  We embed the canvas as an explicit
state (current font, font size, fill colour) accumulating a list of drawing
commands, with all coordinates exact fractions of PostScript points
(1 inch = 72 points, A4 = 210 mm x 297 mm).

Coordinates are carried by Frac, an exact unnormalised fraction of integers
whose arithmetic never reduces terms, so that every computation is a pure
integer computation; value comparison (Frac.eqb, Frac.ltb, Frac.leb) is by
cross multiplication, which agrees with rational comparison because every
denominator constructed in this development is positive: literals have
denominator a power of ten, and the operations used here (negation,
multiplication, subtraction, division by a value with positive numerator)
preserve positivity of denominators.
-/

set_option maxRecDepth 8000

namespace SchematicPdf

/-- An exact fraction num/den of integers, kept unnormalised. -/
structure Frac where
  num : ℤ
  den : ℤ := 1
deriving DecidableEq

instance (n : Nat) : OfNat Frac n := ⟨⟨Int.ofNat n, 1⟩⟩

instance : OfScientific Frac where
  ofScientific m b e :=
    if b then ⟨Int.ofNat m, Int.ofNat (10 ^ e)⟩ else ⟨Int.ofNat (m * 10 ^ e), 1⟩

instance : Neg Frac := ⟨fun a => ⟨-a.num, a.den⟩⟩

instance : Mul Frac := ⟨fun a b => ⟨a.num * b.num, a.den * b.den⟩⟩

instance : Sub Frac := ⟨fun a b => ⟨a.num * b.den - b.num * a.den, a.den * b.den⟩⟩

instance : Div Frac := ⟨fun a b => ⟨a.num * b.den, a.den * b.num⟩⟩

/-- Value equality of fractions (exact, by cross multiplication; correct
whenever both denominators are positive, as everywhere in this file). -/
def Frac.eqb (a b : Frac) : Bool := a.num * b.den == b.num * a.den

/-- Value strict order on fractions with positive denominators. -/
def Frac.ltb (a b : Frac) : Bool := decide (a.num * b.den < b.num * a.den)

/-- Value order on fractions with positive denominators. -/
def Frac.leb (a b : Frac) : Bool := decide (a.num * b.den ≤ b.num * a.den)

/-- An RGB fill colour, each channel an exact fraction. -/
abbrev Fill : Type := Frac × Frac × Frac

/-- Channelwise value equality of fill colours. -/
def fillEqb (f g : Fill) : Bool :=
  Frac.eqb f.1 g.1 && Frac.eqb f.2.1 g.2.1 && Frac.eqb f.2.2 g.2.2

/-- One typographic inch in points (reportlab.lib.units.inch = 72). -/
def inch : Frac := 72

/-- One millimetre in points (reportlab.lib.units.mm = 72 / 25.4). -/
def mm : Frac := inch / 25.4

/-- Page size A4 from reportlab.lib.pagesizes: (210 mm, 297 mm) in points. -/
def A4 : Frac × Frac := (210 * mm, 297 * mm)

/-- A drawing command recorded on the canvas, in emission order.  A text
command captures the graphics state (font, size, fill colour) current at
the moment of the drawString call. -/
inductive Cmd where
  | text (x y : Frac) (font : String) (size : Frac) (fill : Fill) (s : String)
  | rule (x1 y1 x2 y2 : Frac) (lineWidth : Frac)
  | showPage
deriving DecidableEq

/-- The mutable graphics state of a reportlab canvas, together with the
commands emitted so far.  reportlab's default fill colour is black. -/
structure CState where
  font : String := "Helvetica"
  size : Frac := 12
  fill : Fill := (0, 0, 0)
  lineWidth : Frac := 1
  cmds : List Cmd := []
deriving DecidableEq

/-- Embeds c.setFont(name, size). -/
def setFont (c : CState) (f : String) (sz : Frac) : CState :=
  { c with font := f, size := sz }

/-- Embeds c.setFillColorRGB(r, g, b). -/
def setFillColorRGB (c : CState) (r g b : Frac) : CState :=
  { c with fill := (r, g, b) }

/-- Embeds c.setLineWidth(w). -/
def setLineWidth (c : CState) (w : Frac) : CState :=
  { c with lineWidth := w }

/-- Embeds c.drawString(x, y, s): records a text command carrying the
current font, size and fill colour. -/
def drawString (c : CState) (x y : Frac) (s : String) : CState :=
  { c with cmds := c.cmds ++ [Cmd.text x y c.font c.size c.fill s] }

/-- Embeds c.line(x1, y1, x2, y2). -/
def drawLine (c : CState) (x1 y1 x2 y2 : Frac) : CState :=
  { c with cmds := c.cmds ++ [Cmd.rule x1 y1 x2 y2 c.lineWidth] }

/-- Embeds the repeated body-line loop
  for line in lines: c.drawString(x, y, line); y -= dy
returning the state and the cursor after the loop. -/
def drawBody (c : CState) (x dy : Frac) (lines : List String) (y : Frac) :
    CState × Frac :=
  match lines with
  | [] => (c, y)
  | l :: ls => drawBody (drawString c x y l) x dy ls (y - dy)

/-- Body lines of the Circuit Overview section (source list overview). -/
def overview : List String :=
  [ "This circuit implements 8 PB86 push buttons with built-in LEDs.",
    "",
    "Components:",
    "  - MCP23017: I2C I/O Expander (button inputs)",
    "  - 74HC595: 8-bit Shift Register (LED outputs)",
    "  - 8x PB86: Push buttons with LEDs",
    "  - 8x 150Ω: Current limiting resistors",
    "",
    "Interfaces:",
    "  - I2C: SDA, SCL (MCP23017 control)",
    "  - SPI: DATA, LATCH, CLOCK (74HC595 control)" ]

/-- Body lines of the Button Input Circuit section (source list
button_circuit). -/
def button_circuit : List String :=
  [ "     +5V",
    "      │",
    "      │  (100kΩ internal pull-up)",
    "      │",
    "      ├─────── GPB0 (MCP23017)",
    "      │",
    "     ─┴─  PB86 Button",
    "      │  (Pins 1-2: NO switch)",
    "      │",
    "     GND" ]

/-- Body lines of the LED Output Circuit section (source list led_circuit). -/
def led_circuit : List String :=
  [ "      QA (74HC595)",
    "       │",
    "       │",
    "      ─┴─  R1 (150Ω)",
    "       │",
    "       │",
    "      ─┴─  LED1 Anode (+)",
    "       │",
    "      ─┴─  LED1 Cathode (-)",
    "       │",
    "      GND" ]

/-- Body lines of the Component Values section (source list
component_values). -/
def component_values : List String :=
  [ "Resistors:",
    "  R1-R8: 150Ω, 1/4W, 5% (current limiting)",
    "  Pull-ups: 100kΩ (MCP23017 internal)",
    "",
    "LEDs:",
    "  D1-D8: Red LED, 20mA max, Vf ≈ 2.0V",
    "",
    "ICs:",
    "  MCP23017: I2C I/O Expander (DIP-28)",
    "  74HC595: 8-bit Shift Register (DIP-16)" ]

/-- Body lines of the Circuit Analysis section (source list
circuit_analysis). -/
def circuit_analysis : List String :=
  [ "LED Current:",
    "  I_LED = (V_CC - V_LED) / R_total",
    "  I_LED = (5V - 2V) / 200Ω = 15mA ✅",
    "",
    "Power Consumption:",
    "  Per LED: 15mA",
    "  All LEDs ON: 8 × 15mA = 120mA",
    "  Total: ~120.4mA ✅",
    "",
    "Button Detection:",
    "  Released: 5V (through pull-up)",
    "  Pressed: 0V (connected to GND)" ]

/-- Body lines of the Validation Status section (source list validation). -/
def validation : List String :=
  [ "✅ SPICE simulation completed",
    "✅ LED current: 15mA (safe)",
    "✅ Power consumption: ~120mA (acceptable)",
    "✅ Button detection: 5V/0V logic (reliable)",
    "✅ Circuit ready for breadboard prototype" ]

/-- Body lines of the Next Steps section (source list next_steps). -/
def next_steps : List String :=
  [ "1. Build breadboard prototype",
    "2. Test button detection and LED control",
    "3. Write firmware for MCP23017/74HC595",
    "4. Design PCB layout in KiCad" ]

/-- The result of one successful run of create_schematic_pdf: the page size
passed to the Canvas constructor, the drawing commands in emission order, the
final value of the layout cursor y after the Next Steps loop, the path the
canvas was saved to, and the lines printed to standard output. -/
structure RunResult where
  pageSize : Frac × Frac
  cmds : List Cmd
  finalY : Frac
  savedTo : String
  printed : List String
deriving DecidableEq

/-- Embedding of create_schematic_pdf(filename), lines 11-200 of
generate_schematic_pdf.py, translated statement by statement.  The cursor y
is threaded explicitly; drawing commands accumulate in the canvas state. -/
def create_schematic_pdf (filename : String) : RunResult :=
  let width := A4.1
  let height := A4.2
  let c : CState := {}
  -- Title
  let c := setFont c "Helvetica-Bold" 16
  let c := drawString c (1*inch) (height - 1*inch) "PB86 8-Button Circuit Schematic"
  -- Subtitle
  let c := setFont c "Helvetica" 12
  let c := drawString c (1*inch) (height - 1.3*inch) "SPICE Validated: LED current 15mA, Power 120mA total"
  let c := drawString c (1*inch) (height - 1.5*inch) "Date: January 16, 2026"
  -- Divider line
  let c := setLineWidth c 2
  let c := drawLine c (1*inch) (height - 1.7*inch) (width - 1*inch) (height - 1.7*inch)
  -- Circuit Overview Section
  let y := height - 2.2*inch
  let c := setFont c "Helvetica-Bold" 14
  let c := drawString c (1*inch) y "CIRCUIT OVERVIEW"
  let y := y - 0.4*inch
  let c := setFont c "Helvetica" 10
  let (c, y) := drawBody c (1.2*inch) (0.25*inch) overview y
  -- Button Input Circuit Section
  let y := y - 0.3*inch
  let c := setFont c "Helvetica-Bold" 14
  let c := drawString c (1*inch) y "BUTTON INPUT CIRCUIT"
  let y := y - 0.4*inch
  let c := setFont c "Courier" 10
  let (c, y) := drawBody c (1.2*inch) (0.2*inch) button_circuit y
  -- LED Output Circuit Section
  let y := y - 0.3*inch
  let c := setFont c "Helvetica-Bold" 14
  let c := drawString c (1*inch) y "LED OUTPUT CIRCUIT"
  let y := y - 0.4*inch
  let c := setFont c "Courier" 10
  let (c, y) := drawBody c (1.2*inch) (0.2*inch) led_circuit y
  -- Component Values Section
  let y := y - 0.3*inch
  let c := setFont c "Helvetica-Bold" 14
  let c := drawString c (1*inch) y "COMPONENT VALUES"
  let y := y - 0.4*inch
  let c := setFont c "Helvetica" 10
  let (c, y) := drawBody c (1.2*inch) (0.25*inch) component_values y
  -- Circuit Analysis Section
  let y := y - 0.3*inch
  let c := setFont c "Helvetica-Bold" 14
  let c := drawString c (1*inch) y "CIRCUIT ANALYSIS"
  let y := y - 0.4*inch
  let c := setFont c "Helvetica" 10
  let (c, y) := drawBody c (1.2*inch) (0.25*inch) circuit_analysis y
  -- Validation Status Section
  let y := y - 0.3*inch
  let c := setFont c "Helvetica-Bold" 14
  let c := drawString c (1*inch) y "VALIDATION STATUS"
  let y := y - 0.4*inch
  let c := setFont c "Helvetica" 10
  let c := setFillColorRGB c 0 0.5 0
  let (c, y) := drawBody c (1.2*inch) (0.25*inch) validation y
  let c := setFillColorRGB c 0 0 0
  -- Next Steps Section
  let y := y - 0.3*inch
  let c := setFont c "Helvetica-Bold" 14
  let c := drawString c (1*inch) y "NEXT STEPS"
  let y := y - 0.4*inch
  let c := setFont c "Helvetica" 10
  let (c, y) := drawBody c (1.2*inch) (0.25*inch) next_steps y
  -- Footer
  let c := setFont c "Helvetica" 8
  let c := drawString c (1*inch) (0.5*inch) "Generated with Claude Code via Happy Engineering"
  let c := drawString c (width - 2.5*inch) (0.5*inch) "Page 1 of 1"
  { pageSize := A4,
    cmds := c.cmds,
    finalY := y,
    savedTo := filename,
    printed := ["PDF created: " ++ filename] }

/-- Embedding of the zero-argument entry point (the __main__ guard),
which calls the renderer with the hardcoded filename. -/
def main_call : RunResult := create_schematic_pdf "pb86_8button_schematic.pdf"

/-- An externally observable I/O event of a run: the attempt to save the
canvas to a file, and a line printed to standard output. -/
inductive Event where
  | saveFile (filename : String)
  | printLine (msg : String)
deriving DecidableEq

/-- Embedding of the effectful tail of create_schematic_pdf
(c.save() followed by the print), threading an abstract filesystem fs that
answers the save request for a path with success or an I/O error.  The
source has no try/except: on an error from save, execution stops and the
error propagates (the Option String component); the print statement runs
only after a successful save.  The drawing commands are those built before
the save. -/
def run_create_schematic_pdf (fs : String → Except String Unit)
    (filename : String) : List Cmd × List Event × Option String :=
  let cmds := (create_schematic_pdf filename).cmds
  match fs filename with
  | Except.error e => (cmds, [Event.saveFile filename], some e)
  | Except.ok _ =>
      (cmds, [Event.saveFile filename,
              Event.printLine ("PDF created: " ++ filename)], none)

/-! Observation helpers over a command list. -/

/-- The strings drawn on the page, in drawing order. -/
def drawnTexts (cmds : List Cmd) : List String :=
  cmds.filterMap fun c =>
    match c with
    | Cmd.text _ _ _ _ _ s => some s
    | _ => none

/-- A text command, flattened for inspection. -/
structure TextCmd where
  x : Frac
  y : Frac
  font : String
  size : Frac
  fill : Fill
  s : String
deriving DecidableEq

/-- The text commands of a run, in drawing order. -/
def textCmds (cmds : List Cmd) : List TextCmd :=
  cmds.filterMap fun c =>
    match c with
    | Cmd.text x y f sz fl s => some ⟨x, y, f, sz, fl, s⟩
    | _ => none

/-- The string of the i-th text command, when it exists. -/
def sAt (ts : List TextCmd) (i : Nat) : Option String :=
  (ts.get? i).map TextCmd.s

/-- Is the y coordinate of the i-th text command (value-)equal to q? -/
def yEqAt (ts : List TextCmd) (i : Nat) (q : Frac) : Bool :=
  match ts.get? i with
  | some t => Frac.eqb t.y q
  | none => false

/-- Is the y coordinate of the i-th text command strictly negative? -/
def yNegAt (ts : List TextCmd) (i : Nat) : Bool :=
  match ts.get? i with
  | some t => Frac.ltb t.y 0
  | none => false

/-- Does the first list start the second (character lists)? -/
def startsWithChars : List Char → List Char → Bool
  | [], _ => true
  | _ :: _, [] => false
  | a :: as, b :: bs => a == b && startsWithChars as bs

/-- Does the first character list occur contiguously inside the second? -/
def hasSubstrChars (needle : List Char) : List Char → Bool
  | [] => needle.isEmpty
  | c :: t => startsWithChars needle (c :: t) || hasSubstrChars needle t

/-- Does the string needle occur verbatim inside hay? -/
def hasSubstr (needle hay : String) : Bool :=
  hasSubstrChars needle.data hay.data

/-- The seven section headings, in the order the source emits them. -/
def headings : List String :=
  [ "CIRCUIT OVERVIEW", "BUTTON INPUT CIRCUIT", "LED OUTPUT CIRCUIT",
    "COMPONENT VALUES", "CIRCUIT ANALYSIS", "VALIDATION STATUS",
    "NEXT STEPS" ]

/-- Is a command a showPage (page break)? -/
def isShowPage : Cmd → Bool
  | Cmd.showPage => true
  | _ => false

/-- Number of pages in the saved PDF, following reportlab semantics: each
showPage call closes a page, and save emits the current page when it holds
any content.  The source never calls showPage. -/
def pageCount (cmds : List Cmd) : Nat :=
  (cmds.filter isShowPage).length +
    (if (cmds.reverse.takeWhile (fun c => !isShowPage c)).isEmpty then 0 else 1)

/-- Checks that the text commands ts, starting at cursor y, spell out the
given body lines at indent x = 1.2 inch, in the given font at size 10, with
the cursor decremented by dy after each line. -/
def bodyRunFrom : List TextCmd → Frac → String → Frac → List String → Bool
  | _, _, _, _, [] => true
  | [], _, _, _, _ :: _ => false
  | t :: ts, y, f, dy, l :: ls =>
      t.s == l && t.font == f && Frac.eqb t.size 10 &&
      Frac.eqb t.x (1.2 * inch) && Frac.eqb t.y y &&
      bodyRunFrom ts (y - dy) f dy ls

/-- Checks a whole section at heading index hIdx of ts: a bold 14-point
heading at x = 1 inch, then the body lines in the given font with per-line
decrement dy, the first body line 0.4 inch below the heading. -/
def sectionCheck (ts : List TextCmd) (hIdx : Nat) (heading font : String)
    (dy : Frac) (lines : List String) : Bool :=
  match ts.get? hIdx with
  | none => false
  | some h =>
      h.s == heading && h.font == "Helvetica-Bold" && Frac.eqb h.size 14 &&
      Frac.eqb h.x (1 * inch) &&
      bodyRunFrom (ts.drop (hIdx + 1)) (h.y - 0.4 * inch) font dy lines

/-- Checks that the heading at index hIdx sits 0.3 inch (the extra
inter-section gap) plus one body-line decrement prevDy below the last body
line of the previous section (the text command just before it). -/
def headingGap (ts : List TextCmd) (hIdx : Nat) (prevDy : Frac) : Bool :=
  match ts.get? (hIdx - 1), ts.get? hIdx with
  | some p, some h => Frac.eqb h.y (p.y - prevDy - 0.3 * inch)
  | _, _ => false

end SchematicPdf

namespace SchematicPdf

/-! Shared helper facts: the drawing commands and the final cursor are the
same for every filename, since the filename is used only for saving and for
the confirmation message. -/

/-- The page drawing commands of any run. -/
def page_cmds : List Cmd := (create_schematic_pdf "pb86_8button_schematic.pdf").cmds

/-- The final layout cursor of any run. -/
def page_finalY : Frac := (create_schematic_pdf "pb86_8button_schematic.pdf").finalY

theorem cmds_filename_indep (filename : String) :
    (create_schematic_pdf filename).cmds = page_cmds := rfl

theorem finalY_filename_indep (filename : String) :
    (create_schematic_pdf filename).finalY = page_finalY := rfl

/-- Claim C1: in every run, the sequence of drawn strings contains each of
the seven section headings exactly once, and in the fixed order CIRCUIT
OVERVIEW, BUTTON INPUT CIRCUIT, LED OUTPUT CIRCUIT, COMPONENT VALUES,
CIRCUIT ANALYSIS, VALIDATION STATUS, NEXT STEPS: filtering the drawn
strings to the headings yields exactly the heading list, and each heading
is drawn exactly once. -/
theorem headings_once_in_fixed_order (filename : String) :
    (drawnTexts (create_schematic_pdf filename).cmds).filter
      (fun s => headings.contains s) = headings ∧
    (headings.all fun h =>
      (drawnTexts (create_schematic_pdf filename).cmds).count h == 1) = true := by
  rw [cmds_filename_indep]
  exact ⟨by decide, by decide⟩

/-- Claim C2: every drawn string whose text is one of the five Validation
Status body lines carries the green fill (0, 0.5, 0), and every other drawn
string — the VALIDATION STATUS heading itself and all following sections
included — carries the default black fill (0, 0, 0); moreover all five body
lines are actually drawn, and the heading is not one of them. -/
theorem validation_body_green_rest_black (filename : String) :
    ((textCmds (create_schematic_pdf filename).cmds).all fun t =>
      if validation.contains t.s
      then fillEqb t.fill (0, 0.5, 0)
      else fillEqb t.fill (0, 0, 0)) = true ∧
    (validation.all fun l =>
      (drawnTexts (create_schematic_pdf filename).cmds).contains l) = true ∧
    validation.contains "VALIDATION STATUS" = false ∧
    validation.length = 5 := by
  rw [cmds_filename_indep]
  exact ⟨by decide, by decide, by decide, by decide⟩

/-- Claim C3: in every run the drawn text contains the literal substrings
15mA, 120mA, 150Ω and 100kΩ verbatim. -/
theorem numeric_literals_present (filename : String) :
    (["15mA", "120mA", "150Ω", "100kΩ"].all fun n =>
      (drawnTexts (create_schematic_pdf filename).cmds).any fun s =>
        hasSubstr n s) = true := by
  rw [cmds_filename_indep]
  decide

/-- Claim C4: the two diagram sections (Button Input Circuit, LED Output
Circuit) draw their body lines in Courier with a 0.2 inch per-line cursor
decrement, every other section draws its body lines in Helvetica with a
0.25 inch decrement, and before each new section heading an extra 0.3 inch
gap is subtracted from the cursor on top of the previous section's last
per-line decrement. -/
theorem diagram_sections_courier_rest_helvetica (filename : String) :
    sectionCheck (textCmds (create_schematic_pdf filename).cmds) 15
      "BUTTON INPUT CIRCUIT" "Courier" (0.2*inch) button_circuit = true ∧
    sectionCheck (textCmds (create_schematic_pdf filename).cmds) 26
      "LED OUTPUT CIRCUIT" "Courier" (0.2*inch) led_circuit = true ∧
    sectionCheck (textCmds (create_schematic_pdf filename).cmds) 3
      "CIRCUIT OVERVIEW" "Helvetica" (0.25*inch) overview = true ∧
    sectionCheck (textCmds (create_schematic_pdf filename).cmds) 38
      "COMPONENT VALUES" "Helvetica" (0.25*inch) component_values = true ∧
    sectionCheck (textCmds (create_schematic_pdf filename).cmds) 49
      "CIRCUIT ANALYSIS" "Helvetica" (0.25*inch) circuit_analysis = true ∧
    sectionCheck (textCmds (create_schematic_pdf filename).cmds) 62
      "VALIDATION STATUS" "Helvetica" (0.25*inch) validation = true ∧
    sectionCheck (textCmds (create_schematic_pdf filename).cmds) 68
      "NEXT STEPS" "Helvetica" (0.25*inch) next_steps = true ∧
    headingGap (textCmds (create_schematic_pdf filename).cmds) 15 (0.25*inch) = true ∧
    headingGap (textCmds (create_schematic_pdf filename).cmds) 26 (0.2*inch) = true ∧
    headingGap (textCmds (create_schematic_pdf filename).cmds) 38 (0.2*inch) = true ∧
    headingGap (textCmds (create_schematic_pdf filename).cmds) 49 (0.25*inch) = true ∧
    headingGap (textCmds (create_schematic_pdf filename).cmds) 62 (0.25*inch) = true ∧
    headingGap (textCmds (create_schematic_pdf filename).cmds) 68 (0.25*inch) = true := by
  rw [cmds_filename_indep]
  exact ⟨by decide, by decide, by decide, by decide, by decide, by decide,
    by decide, by decide, by decide, by decide, by decide, by decide, by decide⟩

/-- Claim C5: the renderer is deterministic — two invocations with any two
paths produce identical sequences of drawing commands, hence identical
drawn text; the only date in the text is the hardcoded string
Date: January 16, 2026, which is always drawn. -/
theorem renderer_deterministic (f1 f2 : String) :
    (create_schematic_pdf f1).cmds = (create_schematic_pdf f2).cmds ∧
    drawnTexts (create_schematic_pdf f1).cmds =
      drawnTexts (create_schematic_pdf f2).cmds ∧
    (drawnTexts (create_schematic_pdf f1).cmds).contains
      "Date: January 16, 2026" = true := by
  refine ⟨(cmds_filename_indep f1).trans (cmds_filename_indep f2).symm,
    by rw [cmds_filename_indep f1, cmds_filename_indep f2], ?_⟩
  rw [cmds_filename_indep]
  decide

/-- Claim C6: when saving the output file fails, the renderer propagates
the underlying I/O error uncaught — the run result carries exactly the
error the filesystem raised, the save attempt is the only I/O event (no
confirmation is printed), and the run does not silently succeed. -/
theorem save_error_propagates (fs : String → Except String Unit)
    (filename e : String) (h : fs filename = Except.error e) :
    run_create_schematic_pdf fs filename =
      ((create_schematic_pdf filename).cmds,
       [Event.saveFile filename], some e) := by
  unfold run_create_schematic_pdf
  rw [h]

/-- Witness for C6 at a concrete always-failing filesystem. -/
theorem save_error_propagates_witness :
    run_create_schematic_pdf (fun _ => Except.error "permission denied")
        "pb86_8button_schematic.pdf" =
      ((create_schematic_pdf "pb86_8button_schematic.pdf").cmds,
       [Event.saveFile "pb86_8button_schematic.pdf"],
       some "permission denied") :=
  save_error_propagates (fun _ => Except.error "permission denied")
    "pb86_8button_schematic.pdf" "permission denied" rfl

/-- Claim C7: the confirmation line is printed only after a successful
save — on success the event trace is exactly the save followed by the
confirmation naming the output path (so the print never precedes the save),
and on any failure no confirmation is printed at all. -/
theorem confirmation_only_after_save (fs : String → Except String Unit)
    (filename : String) :
    ((run_create_schematic_pdf fs filename).2.2 = none →
      (run_create_schematic_pdf fs filename).2.1 =
        [Event.saveFile filename,
         Event.printLine ("PDF created: " ++ filename)]) ∧
    ((run_create_schematic_pdf fs filename).2.2 ≠ none →
      ∀ m, Event.printLine m ∉ (run_create_schematic_pdf fs filename).2.1) := by
  unfold run_create_schematic_pdf
  cases h : fs filename with
  | error e => simp
  | ok u => simp

/-- Witness for C7: on a writable filesystem the trace is save then print;
on a failing one the confirmation does not appear. -/
theorem confirmation_only_after_save_witness :
    (run_create_schematic_pdf (fun _ => Except.ok ()) "a.pdf").2.1 =
      [Event.saveFile "a.pdf", Event.printLine "PDF created: a.pdf"] ∧
    Event.printLine "PDF created: a.pdf" ∉
      (run_create_schematic_pdf (fun _ => Except.error "disk full") "a.pdf").2.1 :=
  ⟨(confirmation_only_after_save (fun _ => Except.ok ()) "a.pdf").1 rfl,
   (confirmation_only_after_save (fun _ => Except.error "disk full") "a.pdf").2
     (by simp [run_create_schematic_pdf]) "PDF created: a.pdf"⟩

/-- Claim C8: the zero-argument entry point calls the renderer with the
hardcoded filename pb86_8button_schematic.pdf, and the renderer produces a
single page of size A4 (210 mm by 297 mm, i.e. 75600/127 by 106920/127
points). -/
theorem main_single_page_A4 :
    main_call.savedTo = "pb86_8button_schematic.pdf" ∧
    main_call.pageSize = A4 ∧
    Frac.eqb main_call.pageSize.1 (75600/127) = true ∧
    Frac.eqb main_call.pageSize.2 (106920/127) = true ∧
    pageCount main_call.cmds = 1 := by
  exact ⟨rfl, rfl, by decide, by decide, by decide⟩

/-- Claim C9, counterexample: the cursor is already negative at the second
body line of the Component Values section (text command 40 is that line,
body line index 1, drawn at y = -9468/635 points < 0), so y does not first
become negative at the third body line; and the total decrement from the
initial cursor is not 18.9 inches. -/
theorem overflow_counterexample :
    sAt (textCmds page_cmds) 40 =
      some "  R1-R8: 150Ω, 1/4W, 5% (current limiting)" ∧
    component_values.get? 1 =
      some "  R1-R8: 150Ω, 1/4W, 5% (current limiting)" ∧
    yEqAt (textCmds page_cmds) 40 (-9468/635) = true ∧
    Frac.ltb (-9468/635) 0 = true ∧
    Frac.eqb page_finalY ((A4.2 - 2.2*inch) - 18.9*inch) = false := by
  exact ⟨by decide, by decide, by decide, by decide, by decide⟩

/-- Claim C9, amended: the fixed layout overflows the A4 page — the cursor
y, initialised to height - 2.2 inches (between 9.49 and 9.5 inches of
available travel), becomes negative at the SECOND body line of the
Component Values section (the first body line sits at y = 1962/635 > 0,
the second at y = -9468/635 < 0), so that line and every later section
line (the rest of Component Values and the entire Circuit Analysis,
Validation Status and Next Steps sections — text commands 40 through 72,
all but the two footer strings) is drawn at y < 0; the total decrement
over all sections is 19.3 inches. -/
theorem layout_overflows_page (filename : String) :
    sAt (textCmds (create_schematic_pdf filename).cmds) 38 =
      some "COMPONENT VALUES" ∧
    sAt (textCmds (create_schematic_pdf filename).cmds) 39 =
      some "Resistors:" ∧
    yEqAt (textCmds (create_schematic_pdf filename).cmds) 39 (1962/635) = true ∧
    Frac.leb 0 (1962/635) = true ∧
    sAt (textCmds (create_schematic_pdf filename).cmds) 40 =
      some "  R1-R8: 150Ω, 1/4W, 5% (current limiting)" ∧
    yEqAt (textCmds (create_schematic_pdf filename).cmds) 40 (-9468/635) = true ∧
    Frac.ltb (-9468/635) 0 = true ∧
    ((((textCmds (create_schematic_pdf filename).cmds).drop 40).take 33).all
      fun t => Frac.ltb t.y 0) = true ∧
    (textCmds (create_schematic_pdf filename).cmds).length = 75 ∧
    sAt (textCmds (create_schematic_pdf filename).cmds) 73 =
      some "Generated with Claude Code via Happy Engineering" ∧
    Frac.eqb (create_schematic_pdf filename).finalY
      ((A4.2 - 2.2*inch) - 19.3*inch) = true ∧
    Frac.ltb (9.49*inch) (A4.2 - 2.2*inch) = true ∧
    Frac.ltb (A4.2 - 2.2*inch) (9.5*inch) = true := by
  rw [cmds_filename_indep, finalY_filename_indep]
  exact ⟨by decide, by decide, by decide, by decide, by decide, by decide,
    by decide, by decide, by decide, by decide, by decide, by decide, by decide⟩

/-- Claim C10: the green check-mark glyph is not exclusive to the
Validation Status section — the Circuit Analysis body lines about LED
current and total power both contain it, both are drawn, and every drawing
of them carries the default black fill (the green fill is set only after
the Circuit Analysis section completes). -/
theorem checkmark_also_in_black_analysis_lines (filename : String) :
    hasSubstr "✅" "  I_LED = (5V - 2V) / 200Ω = 15mA ✅" = true ∧
    hasSubstr "✅" "  Total: ~120.4mA ✅" = true ∧
    circuit_analysis.contains "  I_LED = (5V - 2V) / 200Ω = 15mA ✅" = true ∧
    circuit_analysis.contains "  Total: ~120.4mA ✅" = true ∧
    validation.contains "  I_LED = (5V - 2V) / 200Ω = 15mA ✅" = false ∧
    validation.contains "  Total: ~120.4mA ✅" = false ∧
    ((textCmds (create_schematic_pdf filename).cmds).any fun t =>
      t.s == "  I_LED = (5V - 2V) / 200Ω = 15mA ✅" &&
      fillEqb t.fill (0, 0, 0)) = true ∧
    ((textCmds (create_schematic_pdf filename).cmds).any fun t =>
      t.s == "  Total: ~120.4mA ✅" &&
      fillEqb t.fill (0, 0, 0)) = true ∧
    ((textCmds (create_schematic_pdf filename).cmds).all fun t =>
      !(t.s == "  I_LED = (5V - 2V) / 200Ω = 15mA ✅" ||
        t.s == "  Total: ~120.4mA ✅") ||
      fillEqb t.fill (0, 0, 0)) = true := by
  rw [cmds_filename_indep]
  exact ⟨by decide, by decide, by decide, by decide, by decide, by decide,
    by decide, by decide, by decide⟩

end SchematicPdf
